import Mathlib

/-!
Shallow embedding of the Gravity Weaver simulation core (src/src/App.tsx).

All JavaScript numbers are modelled as exact rationals (ℚ); decimal
literals such as 0.4 or 0.00001 denote the exact rationals the source
text writes.  Cosmetic string fields (obstacle colour) are modelled as a
rational hue, and randomly generated string ids as naturals; neither
participates in any game logic.  Ambient Math.random() draws are passed
in as explicit rational arguments, so every function here is a pure,
executable translation of the corresponding source function.
-/

namespace GravityWeaver

/-! ## Constants (App.tsx lines 173-184) -/

def CANVAS_WIDTH : ℚ := 400
def CANVAS_HEIGHT : ℚ := 600
def BALL_RADIUS : ℚ := 12
def BASE_GRAVITY_FORCE : ℚ := 0.4
def MAX_VELOCITY : ℚ := 8
def POWERUP_COLLECTION_RADIUS_SQUARED : ℚ := 900
def BOUNCE_DAMPING : ℚ := 0.7

def SHIELD_DURATION : ℚ := 5000
def SLOW_MOTION_DURATION : ℚ := 3000

/-! ## Entity model (App.tsx lines 187-236) -/

inductive GameState
  | menu
  | playing
  | gameOver
deriving DecidableEq, Repr

inductive PowerUpType
  | shield
  | slow
  | magnet
deriving DecidableEq, Repr

inductive ObstacleType
  | spinner
  | wave
  | portal
  | crusher
deriving DecidableEq, Repr, Inhabited

structure Position where
  x : ℚ
  y : ℚ
deriving DecidableEq, Repr

structure Velocity where
  x : ℚ
  y : ℚ
deriving DecidableEq, Repr

/-- Obstacle record; `hue` stands for the cosmetic colour string of the
source and `id` for its random string id. -/
structure Obstacle where
  id : ℕ
  type : ObstacleType
  position : Position
  width : ℚ
  height : ℚ
  rotation : ℚ
  speed : ℚ
  phase : ℚ
  hue : ℚ
deriving DecidableEq, Repr

structure PowerUp where
  id : ℕ
  type : PowerUpType
  position : Position
  collected : Bool
  pulse : ℚ
deriving DecidableEq, Repr

/-! ## Difficulty ladder data (App.tsx lines 307-363) -/

structure LevelConfig where
  thresholdScore : ℕ
  obstacleBaseChance : ℚ
  obstacleMax : ℕ
  allowedObstacleTypes : List ObstacleType
  obstacleSpeedFactor : ℚ
  powerUpChance : ℚ
  eventProbability : ℚ
deriving DecidableEq, Repr, Inhabited

def LEVELS : List LevelConfig :=
  [ { thresholdScore := 0, obstacleBaseChance := 0.01, obstacleMax := 4,
      allowedObstacleTypes := [.spinner, .wave],
      obstacleSpeedFactor := 1, powerUpChance := 0.01, eventProbability := 0.0005 },
    { thresholdScore := 500, obstacleBaseChance := 0.015, obstacleMax := 5,
      allowedObstacleTypes := [.spinner, .wave, .crusher],
      obstacleSpeedFactor := 1.1, powerUpChance := 0.009, eventProbability := 0.001 },
    { thresholdScore := 1500, obstacleBaseChance := 0.02, obstacleMax := 6,
      allowedObstacleTypes := [.spinner, .wave, .crusher, .portal],
      obstacleSpeedFactor := 1.25, powerUpChance := 0.008, eventProbability := 0.002 },
    { thresholdScore := 3000, obstacleBaseChance := 0.025, obstacleMax := 7,
      allowedObstacleTypes := [.spinner, .wave, .crusher, .portal],
      obstacleSpeedFactor := 1.4, powerUpChance := 0.007, eventProbability := 0.003 },
    { thresholdScore := 5000, obstacleBaseChance := 0.03, obstacleMax := 8,
      allowedObstacleTypes := [.spinner, .wave, .crusher, .portal],
      obstacleSpeedFactor := 1.6, powerUpChance := 0.006, eventProbability := 0.005 } ]

/-- Relative obstacle placement inside a pattern template. -/
structure PatternOffset where
  dx : ℚ
  dy : ℚ
  type : ObstacleType
deriving DecidableEq, Repr

structure ObstaclePattern where
  offsets : List PatternOffset
deriving DecidableEq, Repr

/-- The fixed pattern library (App.tsx lines 369-398). -/
def PATTERNS : List ObstaclePattern :=
  [ { offsets := [ { dx := 0, dy := 0, type := .spinner },
                   { dx := -60, dy := -40, type := .spinner },
                   { dx := 120, dy := 80, type := .spinner } ] },
    { offsets := [ { dx := 0, dy := 0, type := .wave },
                   { dx := 0, dy := -80, type := .crusher },
                   { dx := 80, dy := 0, type := .wave } ] },
    { offsets := [ { dx := 0, dy := 0, type := .portal },
                   { dx := -100, dy := 50, type := .wave },
                   { dx := 100, dy := -50, type := .wave } ] },
    { offsets := [ { dx := 0, dy := 0, type := .crusher },
                   { dx := -80, dy := 30, type := .crusher },
                   { dx := 80, dy := -30, type := .crusher } ] } ]

/-! ## Physics integrator (gameLoop, App.tsx lines 960-990) -/

inductive BounceSide
  | top
  | bottom
deriving DecidableEq, Repr

structure IntegrateResult where
  posY : ℚ
  velY : ℚ
  gravityDir : ℚ
  bounce : Option BounceSide
deriving DecidableEq, Repr

/-- The velocity clamp of lines 966-969:
max(-MAX_VELOCITY*s, min(MAX_VELOCITY*s, v)). -/
def clampVel (s v : ℚ) : ℚ :=
  max (-(MAX_VELOCITY * s)) (min (MAX_VELOCITY * s) v)

/-- The clamped velocity a tick computes: previous velocity plus
`gravityForce * gravityDir * dt` with `gravityForce =
BASE_GRAVITY_FORCE * speedMultiplier`, clamped (lines 964-969). -/
def tickVel (velY gravityDir s dt : ℚ) : ℚ :=
  clampVel s (velY + BASE_GRAVITY_FORCE * s * gravityDir * dt)

/-- The tentative position a tick computes before boundary handling
(line 971). -/
def tickPos (velY posY gravityDir s dt : ℚ) : ℚ :=
  posY + tickVel velY gravityDir s dt * dt

/-- Top-boundary bounce condition (line 973): the leading edge crosses
the top while the body moves upward. -/
def topBounceCond (velY posY gravityDir s dt : ℚ) : Prop :=
  tickPos velY posY gravityDir s dt - BALL_RADIUS ≤ 0 ∧
    tickVel velY gravityDir s dt < 0

/-- Bottom-boundary bounce condition (line 980): the leading edge
crosses the bottom while the body moves downward. -/
def botBounceCond (velY posY gravityDir s dt : ℚ) : Prop :=
  tickPos velY posY gravityDir s dt + BALL_RADIUS ≥ CANVAS_HEIGHT ∧
    tickVel velY gravityDir s dt > 0

instance (velY posY gravityDir s dt : ℚ) :
    Decidable (topBounceCond velY posY gravityDir s dt) :=
  inferInstanceAs (Decidable (_ ∧ _))

instance (velY posY gravityDir s dt : ℚ) :
    Decidable (botBounceCond velY posY gravityDir s dt) :=
  inferInstanceAs (Decidable (_ ∧ _))

/-- One tick of the vertical physics integration (lines 960-990):
gravity acceleration, velocity clamp, position update, then the
top-boundary branch and, only otherwise, the bottom-boundary branch.
`dt` is the clamped frame-time ratio `effectiveDeltaRatio`. -/
def integrateStep (velY posY gravityDir s dt : ℚ) : IntegrateResult :=
  let v2 := tickVel velY gravityDir s dt
  let p1 := tickPos velY posY gravityDir s dt
  if p1 - BALL_RADIUS ≤ 0 ∧ v2 < 0 then
    { posY := BALL_RADIUS, velY := -v2 * BOUNCE_DAMPING,
      gravityDir := -gravityDir, bounce := some .top }
  else if p1 + BALL_RADIUS ≥ CANVAS_HEIGHT ∧ v2 > 0 then
    { posY := CANVAS_HEIGHT - BALL_RADIUS, velY := -v2 * BOUNCE_DAMPING,
      gravityDir := -gravityDir, bounce := some .bottom }
  else
    { posY := p1, velY := v2, gravityDir := gravityDir, bounce := none }

/-! ## Collision resolver (checkObstacleCollisions, App.tsx lines 799-832) -/

/-- The per-obstacle body test of the collision loop: an axis-aligned
bounding-box early rejection, then closest-point-on-box vs circle;
a hit is reported only when the body is not invulnerable. -/
def obstacleHitTest (ball : Position) (obs : Obstacle) (inv : Bool) : Bool :=
  let halfW := obs.width / 2
  let halfH := obs.height / 2
  let obsLeft := obs.position.x - halfW
  let obsRight := obs.position.x + halfW
  let obsTop := obs.position.y - halfH
  let obsBottom := obs.position.y + halfH
  if ball.x + BALL_RADIUS < obsLeft ∨ ball.x - BALL_RADIUS > obsRight ∨
     ball.y + BALL_RADIUS < obsTop ∨ ball.y - BALL_RADIUS > obsBottom then
    false
  else
    let closestX := max obsLeft (min ball.x obsRight)
    let closestY := max obsTop (min ball.y obsBottom)
    let dx := ball.x - closestX
    let dy := ball.y - closestY
    decide (dx * dx + dy * dy < BALL_RADIUS * BALL_RADIUS) && !inv

/-- checkObstacleCollisions: the source loop returns true on the first
obstacle that passes the hit test, false otherwise. -/
def checkObstacleCollisions (ball : Position) (obstacles : List Obstacle)
    (inv : Bool) : Bool :=
  obstacles.any (fun o => obstacleHitTest ball o inv)

/-- The game-over decision of the tick (lines 1072-1075): on a detected
collision the run state becomes gameOver; the collision handler never
touches the obstacle list. -/
def collisionPhase (ball : Position) (obstacles : List Obstacle) (inv : Bool)
    (gs : GameState) : GameState × List Obstacle :=
  if checkObstacleCollisions ball obstacles inv then
    (GameState.gameOver, obstacles)
  else
    (gs, obstacles)

/-! ## Power-up pickup (collectPowerUps, App.tsx lines 834-882) -/

/-- The pickup test of the collection loop: an uncollected power-up whose
squared distance to the body is below the pickup radius squared. -/
def powerUpPicked (ball : Position) (p : PowerUp) : Bool :=
  !p.collected &&
    (let dx := ball.x - p.position.x
     let dy := ball.y - p.position.y
     decide (dx * dx + dy * dy < POWERUP_COLLECTION_RADIUS_SQUARED))

/-- The slow effect applied at pickup (line 861-863): each live
obstacle's speed is multiplied by 0.6. -/
def applySlow (obstacles : List Obstacle) : List Obstacle :=
  obstacles.map (fun o => { o with speed := o.speed * 0.6 })

/-- The slow-motion restore fired when the duration expires (lines
865-869): each live obstacle's speed is divided by 0.6. -/
def restoreSlow (obstacles : List Obstacle) : List Obstacle :=
  obstacles.map (fun o => { o with speed := o.speed / 0.6 })

/-- The collection loop of collectPowerUps, as a scan over the power-up
list: each picked power-up is marked collected, and the accumulated
effects are returned (magnet score bonus, magnet combo bonus, whether a
shield was picked, how many slow power-ups were picked).  The source
iterates from the last index down to 0 and the per-element effects are
independent, so a structural recursion over the list is equivalent. -/
def collectScan (ball : Position) :
    List PowerUp → List PowerUp × ℤ × ℤ × Bool × ℕ
  | [] => ([], 0, 0, false, 0)
  | p :: rest =>
    let r := collectScan ball rest
    if powerUpPicked ball p then
      ({ p with collected := true } :: r.1,
       r.2.1 + (if p.type = PowerUpType.magnet then 500 else 0),
       r.2.2.1 + (if p.type = PowerUpType.magnet then 5 else 0),
       (r.2.2.2.1 || decide (p.type = PowerUpType.shield)),
       r.2.2.2.2 + (if p.type = PowerUpType.slow then 1 else 0))
    else
      (p :: r.1, r.2)

/-- collectPowerUps: runs the collection scan and, when anything changed,
the final filter keeping power-ups that are uncollected or still right of
x = -50. -/
def collectPowerUps (ball : Position) (pows : List PowerUp) :
    List PowerUp × ℤ × ℤ × Bool × ℕ :=
  let r := collectScan ball pows
  let changed := pows.any (powerUpPicked ball)
  ((if changed then
      r.1.filter (fun p => !p.collected || decide (p.position.x > -50))
    else pows), r.2)

/-- Math.round on a rational: round half toward positive infinity, as
JavaScript does. -/
def roundQ (q : ℚ) : ℤ := ⌊q + 1 / 2⌋

/-- The score/combo accounting of one tick: the unconditional increments
of lines 1067-1068 (`round(1 * dt)` each) followed by the bonuses that
collectPowerUps grants in the very same tick.  Returns the new score, the
new combo, and the surviving power-up list. -/
def scoreComboPhase (score combo : ℤ) (dt : ℚ) (ball : Position)
    (pows : List PowerUp) : ℤ × ℤ × List PowerUp :=
  let s1 := score + roundQ (1 * dt)
  let c1 := combo + roundQ (1 * dt)
  let r := collectPowerUps ball pows
  (s1 + r.2.1, c1 + r.2.2.1, r.1)

/-! ## Difficulty ladder (level-advance useEffect, App.tsx lines 903-916) -/

/-- Threshold score of tier `i` (0 when out of range; every use is
guarded by the length check, matching the source's bounds guard). -/
def levelThreshold (i : ℕ) : ℕ := (LEVELS.getD i default).thresholdScore

/-- The level-advance evaluation: with `nextLevelIndex = idx + 1`, if it
is in range and the score has reached its threshold, the tier index
advances by one and the one-time celebratory signal fires (the Bool);
otherwise nothing happens. -/
def advanceLevel (score idx : ℕ) : ℕ × Bool :=
  if idx + 1 < LEVELS.length ∧ levelThreshold (idx + 1) ≤ score then
    (idx + 1, true)
  else
    (idx, false)

/-! ## Procedural generator (App.tsx lines 486-546) -/

/-- Width and height fixed per obstacle kind (portal 50x50, crusher
30x180, others 40x70). -/
def obstacleDims (t : ObstacleType) : ℚ × ℚ :=
  (if t = ObstacleType.portal then 50 else if t = ObstacleType.crusher then 30 else 40,
   if t = ObstacleType.portal then 50 else if t = ObstacleType.crusher then 180 else 70)

/-- The obstacle speed formula shared by generateObstacle and
generateObstaclePattern: `(2.5 + rand*2 + score/5000) * tierSpeedFactor *
stormFactor * beatFactor` with `rand` the Math.random() draw in [0,1). -/
def obstacleSpeedFormula (rand score speedFactor : ℚ) (storm beat : Bool) : ℚ :=
  (2.5 + rand * 2 + score / 5000) * speedFactor *
    (if storm then 1.2 else 1) * (if beat then 1.3 else 1)

/-- generateObstaclePattern: instantiates every offset of the chosen
pattern template; a slot kind not allowed by the tier falls back to the
tier's first allowed kind.  The per-slot Math.random() draws are passed
in as the functions `rand`, `phase` and `hue` indexed by slot. -/
def generateObstaclePattern (cfg : LevelConfig) (pidx : Fin PATTERNS.length)
    (rand phase hue : ℕ → ℚ) (score : ℚ) (storm beat : Bool) : List Obstacle :=
  ((PATTERNS.get pidx).offsets).mapIdx (fun i off =>
    let t := if cfg.allowedObstacleTypes.contains off.type then off.type
             else cfg.allowedObstacleTypes.headD ObstacleType.spinner
    { id := i, type := t,
      position := { x := CANVAS_WIDTH + 60 + off.dx,
                    y := min (max (off.dy + CANVAS_HEIGHT / 2) 50) (CANVAS_HEIGHT - 50) },
      width := (obstacleDims t).1, height := (obstacleDims t).2,
      rotation := 0,
      speed := obstacleSpeedFormula (rand i) score cfg.obstacleSpeedFactor storm beat,
      phase := phase i, hue := hue i })

/-! ## Spawn gating (gameLoop, App.tsx lines 1046-1058) -/

/-- The per-tick obstacle spawn chance before the dt factor:
`levelConfig.obstacleBaseChance * spawnMultiplier + score * 0.00001`. -/
def dynamicObstacleChance (base spawnMult score : ℚ) : ℚ :=
  base * spawnMult + score * 0.00001

/-- The spawn phase of the tick: a spawn fires when the random draw `r1`
is below `dynamicObstacleChance * dt` and the live obstacle count is
below the tier's obstacleMax; a firing spawn appends the pattern burst
when the second draw `r2` is below 0.25 and a single obstacle
otherwise. -/
def spawnPhase (r1 r2 dt : ℚ) (obstacles : List Obstacle) (cfg : LevelConfig)
    (spawnMult score : ℚ) (newSingle : Obstacle) (newPattern : List Obstacle) :
    List Obstacle :=
  if r1 < dynamicObstacleChance cfg.obstacleBaseChance spawnMult score * dt ∧
     obstacles.length < cfg.obstacleMax then
    if r2 < 0.25 then obstacles ++ newPattern else obstacles ++ [newSingle]
  else
    obstacles

/-! ## Event modulator (triggerRandomEvent, App.tsx lines 779-797;
trigger guard lines 994-999) -/

inductive EventType
  | storm
  | fog
  | invertShock
deriving DecidableEq, Repr

/-- The two event state variables isEventActive / activeEventType. -/
structure EventState where
  isEventActive : Bool
  activeEventType : Option EventType
deriving DecidableEq, Repr

def possibleEvents : List EventType := [.storm, .fog, .invertShock]

/-- triggerRandomEvent: refuses (early return) while an event is active;
otherwise activates the chosen kind.  The setTimeout it arms is modelled
by `eventExpire` below. -/
def triggerRandomEvent (st : EventState) (choice : Fin possibleEvents.length) :
    EventState :=
  if st.isEventActive then st
  else { isEventActive := true, activeEventType := some (possibleEvents.get choice) }

/-- The body of the 4000 ms setTimeout armed by triggerRandomEvent: the
event ends unconditionally, whatever its kind was. -/
def eventExpire (_ : EventState) : EventState :=
  { isEventActive := false, activeEventType := none }

/-- The per-tick trigger guard of the game loop (lines 994-999): the
trigger is even attempted only while no event is active and the random
draw is below `eventProbability * dt`. -/
def eventTriggerGuard (st : EventState) (r prob dt : ℚ)
    (choice : Fin possibleEvents.length) : EventState :=
  if !st.isEventActive ∧ r < prob * dt then triggerRandomEvent st choice else st

/-! ## Per-tick obstacle motion (gameLoop, App.tsx lines 1001-1019) -/

/-- One tick of obstacle motion: x decreases by speed times the event,
beat and dt factors; phase advances; then the per-kind update (spinner
rotation, wave vertical drift, portal rotation, crusher height
oscillation).  `sine` abstracts Math.sin, passed in to keep the
definition executable. -/
def updateObstacle (sine : ℚ → ℚ) (dt : ℚ) (storm beat : Bool)
    (o : Obstacle) : Obstacle :=
  let em : ℚ := if storm then 1.2 else 1
  let bm : ℚ := if beat then 1.3 else 1
  let x1 := o.position.x - o.speed * em * bm * dt
  let ph1 := o.phase + 0.05 * dt * (if o.type = ObstacleType.crusher then 2 else 1)
  match o.type with
  | ObstacleType.spinner =>
      { o with position := { o.position with x := x1 }, phase := ph1,
               rotation := o.rotation + 4 * dt * (o.speed / 3) }
  | ObstacleType.wave =>
      { o with position := { x := x1, y := o.position.y + sine ph1 * 1.5 * dt },
               phase := ph1 }
  | ObstacleType.portal =>
      { o with position := { o.position with x := x1 }, phase := ph1,
               rotation := o.rotation - 2.5 * dt }
  | ObstacleType.crusher =>
      { o with position := { o.position with x := x1 }, phase := ph1,
               height := 150 + |sine ph1| * 100 }

/-! ## Run state and the gravity-inversion input hook
(toggleGravity, App.tsx lines 591-600) -/

/-- The run-state fields the simulation core owns.  Particles are
presentation-only feedback and are left to the external renderer. -/
structure RunState where
  gameState : GameState
  score : ℤ
  combo : ℤ
  ballPos : Position
  ballVel : Velocity
  gravityDir : ℚ
  currentLevelIndex : ℕ
  obstacles : List Obstacle
  powerUps : List PowerUp
  invulnerable : Bool
  shake : ℚ
  event : EventState
deriving DecidableEq, Repr

/-- toggleGravity: a strict no-op unless the run state is playing;
while playing it negates the gravity direction and arms the cosmetic
screen shake (the particle burst and haptic pulse are external
side-effects). -/
def toggleGravity (st : RunState) : RunState :=
  if st.gameState ≠ GameState.playing then st
  else { st with gravityDir := -st.gravityDir, shake := 6 }

/-! ## Sample entities used by concrete witnesses -/

/-- An uncollected magnet power-up sitting exactly on the sample body
position. -/
def magnetSample : PowerUp :=
  { id := 0, type := .magnet, position := { x := 100, y := 300 },
    collected := false, pulse := 0 }

/-- A concrete single obstacle for spawn-phase witnesses. -/
def obstacleSample : Obstacle :=
  { id := 0, type := .spinner, position := { x := 460, y := 300 },
    width := 40, height := 70, rotation := 0, speed := 3, phase := 0, hue := 0 }

/-- Tier 0 of the ladder, used by concrete witnesses. -/
def lvl0 : LevelConfig := LEVELS.getD 0 default

/-- Index of the first pattern template. -/
def patternIdx0 : Fin PATTERNS.length := ⟨0, by decide⟩

/-- The constant-zero random stream used by concrete witnesses. -/
def zeroStream : ℕ → ℚ := fun _ => 0

/-! ## Theorems -/

/-- Claim C1: on a tick executed while the body is shielded
(invulnerable), the collision check reports no fatal overlap against any
obstacle list, so the run state never transitions to gameOver and the
obstacle list is left untouched — exactly as if no collision had
occurred. -/
theorem shielded_collision_ignored (ball : Position) (obstacles : List Obstacle)
    (gs : GameState) :
    checkObstacleCollisions ball obstacles true = false ∧
    collisionPhase ball obstacles true gs = (gs, obstacles) := by
  have hhit : ∀ o : Obstacle, obstacleHitTest ball o true = false := by
    intro o
    simp [obstacleHitTest]
  have hchk : checkObstacleCollisions ball obstacles true = false := by
    simp [checkObstacleCollisions, hhit]
  exact ⟨hchk, by simp [collisionPhase, hchk]⟩

/-- Claim C2: after any tick's integration — including a boundary-bounce
reflection with damping 0.7 — the vertical velocity magnitude is at most
MAX_VELOCITY times the speed multiplier, for every clamped dt in
[0.1, 2]. -/
theorem velocity_bound_invariant (velY posY dir s dt : ℚ) (hs : 0 ≤ s)
    (_hdt1 : 1 / 10 ≤ dt) (_hdt2 : dt ≤ 2) :
    |(integrateStep velY posY dir s dt).velY| ≤ MAX_VELOCITY * s := by
  have hM : (0 : ℚ) ≤ MAX_VELOCITY * s := by
    have h8 : (0 : ℚ) ≤ 8 * s := by linarith
    simpa [MAX_VELOCITY] using h8
  set v2 := tickVel velY dir s dt with hv2def
  have hup : v2 ≤ MAX_VELOCITY * s := by
    rw [hv2def]
    unfold tickVel clampVel
    exact max_le (by linarith) (min_le_left _ _)
  have hlo : -(MAX_VELOCITY * s) ≤ v2 := by
    rw [hv2def]
    unfold tickVel clampVel
    exact le_max_left _ _
  have habs : |v2| ≤ MAX_VELOCITY * s := abs_le.mpr ⟨hlo, hup⟩
  have hdamp : |(-v2 * BOUNCE_DAMPING)| ≤ MAX_VELOCITY * s := by
    have heq : |(-v2 * BOUNCE_DAMPING)| = |v2| * (7 / 10) := by
      rw [abs_mul, abs_neg]
      norm_num [BOUNCE_DAMPING]
    rw [heq]
    nlinarith [abs_nonneg v2]
  unfold integrateStep
  dsimp only
  split
  · simpa using hdamp
  · split
    · simpa using hdamp
    · simpa using habs

/-- Closed instance of velocity_bound_invariant at velY = 0, posY = 300,
dir = 1, s = 1, dt = 1. -/
theorem velocity_bound_invariant_witness :
    (0 : ℚ) ≤ 1 ∧ (1 : ℚ) / 10 ≤ 1 ∧ (1 : ℚ) ≤ 2 ∧
    |(integrateStep 0 300 1 1 1).velY| ≤ MAX_VELOCITY * 1 :=
  ⟨by norm_num, by norm_num, by norm_num,
   velocity_bound_invariant 0 300 1 1 1 (by norm_num) (by norm_num) (by norm_num)⟩

/-- Claim C4: at most one boundary bounce per tick.  The top and bottom
conditions can never hold together; the top branch is decided first and,
when it fires, clamps the position to the top boundary, reflects the
clamped velocity with damping 0.7, and flips gravity exactly once; the
bottom branch fires only when the top one did not, with the symmetric
effect; gravity flips exactly once on a bounce and not at all
otherwise. -/
theorem single_bounce_per_tick (velY posY dir s dt : ℚ) :
    ¬ (topBounceCond velY posY dir s dt ∧ botBounceCond velY posY dir s dt) ∧
    (topBounceCond velY posY dir s dt →
       integrateStep velY posY dir s dt =
         { posY := BALL_RADIUS, velY := -(tickVel velY dir s dt) * BOUNCE_DAMPING,
           gravityDir := -dir, bounce := some BounceSide.top }) ∧
    (¬ topBounceCond velY posY dir s dt → botBounceCond velY posY dir s dt →
       integrateStep velY posY dir s dt =
         { posY := CANVAS_HEIGHT - BALL_RADIUS,
           velY := -(tickVel velY dir s dt) * BOUNCE_DAMPING,
           gravityDir := -dir, bounce := some BounceSide.bottom }) ∧
    ((integrateStep velY posY dir s dt).bounce.isSome = true →
       (integrateStep velY posY dir s dt).gravityDir = -dir) ∧
    ((integrateStep velY posY dir s dt).bounce = none →
       (integrateStep velY posY dir s dt).gravityDir = dir ∧
       (integrateStep velY posY dir s dt).velY = tickVel velY dir s dt) := by
  have htop_eq : topBounceCond velY posY dir s dt →
      integrateStep velY posY dir s dt =
        { posY := BALL_RADIUS, velY := -(tickVel velY dir s dt) * BOUNCE_DAMPING,
          gravityDir := -dir, bounce := some BounceSide.top } := by
    intro htop
    unfold topBounceCond at htop
    unfold integrateStep
    dsimp only
    rw [if_pos htop]
  have hbot_eq : ¬ topBounceCond velY posY dir s dt →
      botBounceCond velY posY dir s dt →
      integrateStep velY posY dir s dt =
        { posY := CANVAS_HEIGHT - BALL_RADIUS,
          velY := -(tickVel velY dir s dt) * BOUNCE_DAMPING,
          gravityDir := -dir, bounce := some BounceSide.bottom } := by
    intro hntop hbot
    unfold topBounceCond at hntop
    unfold botBounceCond at hbot
    unfold integrateStep
    dsimp only
    rw [if_neg hntop, if_pos hbot]
  have hnone_eq : ¬ topBounceCond velY posY dir s dt →
      ¬ botBounceCond velY posY dir s dt →
      integrateStep velY posY dir s dt =
        { posY := tickPos velY posY dir s dt, velY := tickVel velY dir s dt,
          gravityDir := dir, bounce := none } := by
    intro hntop hnbot
    unfold topBounceCond at hntop
    unfold botBounceCond at hnbot
    unfold integrateStep
    dsimp only
    rw [if_neg hntop, if_neg hnbot]
  refine ⟨?_, htop_eq, hbot_eq, ?_, ?_⟩
  · rintro ⟨⟨-, hvneg⟩, ⟨-, hvpos⟩⟩
    exact absurd hvpos (not_lt.mpr hvneg.le)
  · intro hsome
    by_cases h1 : topBounceCond velY posY dir s dt
    · rw [htop_eq h1]
    · by_cases h2 : botBounceCond velY posY dir s dt
      · rw [hbot_eq h1 h2]
      · rw [hnone_eq h1 h2] at hsome
        simp at hsome
  · intro hnone
    by_cases h1 : topBounceCond velY posY dir s dt
    · rw [htop_eq h1] at hnone
      simp at hnone
    · by_cases h2 : botBounceCond velY posY dir s dt
      · rw [hbot_eq h1 h2] at hnone
        simp at hnone
      · rw [hnone_eq h1 h2]
        exact ⟨rfl, rfl⟩

/-- Closed instance of single_bounce_per_tick: a concrete
bottom-boundary bounce (velY = 0, posY = 590, dir = 1, s = 1, dt = 2)
flips gravity once and reflects the clamped velocity. -/
theorem single_bounce_per_tick_witness :
    integrateStep 0 590 1 1 2 =
      { posY := CANVAS_HEIGHT - BALL_RADIUS,
        velY := -(tickVel 0 1 1 2) * BOUNCE_DAMPING,
        gravityDir := -1, bounce := some BounceSide.bottom } := by
  have hv : tickVel 0 1 1 2 = 4 / 5 := by
    norm_num [tickVel, clampVel, BASE_GRAVITY_FORCE, MAX_VELOCITY, min_def, max_def]
  have hp : tickPos 0 590 1 1 2 = 2958 / 5 := by
    rw [tickPos, hv]; norm_num
  have hntop : ¬ topBounceCond 0 590 1 1 2 := by
    rw [topBounceCond, hv, hp]
    norm_num [BALL_RADIUS]
  have hbot : botBounceCond 0 590 1 1 2 := by
    rw [botBounceCond, hv, hp]
    norm_num [BALL_RADIUS, CANVAS_HEIGHT]
  exact (single_bounce_per_tick 0 590 1 1 2).2.2.1 hntop hbot

/-- Claim C5: the tier index never regresses and advances by at most one
per evaluation; it advances to idx + 1 exactly when the score has
reached that tier's threshold; the one-time advance signal fires exactly
when the index advances; and once advanced, re-evaluating with the same
score fires nothing as long as the score has not reached the following
threshold (or no following tier exists). -/
theorem tier_advance_props (score idx : ℕ) :
    idx ≤ (advanceLevel score idx).1 ∧
    (advanceLevel score idx).1 ≤ idx + 1 ∧
    ((advanceLevel score idx).2 = true ↔
       (idx + 1 < LEVELS.length ∧ levelThreshold (idx + 1) ≤ score)) ∧
    ((advanceLevel score idx).2 = true ↔ (advanceLevel score idx).1 = idx + 1) ∧
    (advanceLevel score idx = (idx + 1, true) →
       (score < levelThreshold (idx + 2) ∨ ¬ idx + 2 < LEVELS.length) →
       advanceLevel score (idx + 1) = (idx + 1, false)) := by
  by_cases h : idx + 1 < LEVELS.length ∧ levelThreshold (idx + 1) ≤ score
  · have he : advanceLevel score idx = (idx + 1, true) := by
      unfold advanceLevel
      rw [if_pos h]
    refine ⟨by rw [he]; exact Nat.le_succ idx, by rw [he], ?_, ?_, ?_⟩
    · rw [he]
      simpa using h
    · rw [he]
      simp
    · intro _ hstop
      have hcond : ¬ (idx + 1 + 1 < LEVELS.length ∧ levelThreshold (idx + 1 + 1) ≤ score) := by
        rcases hstop with hlt | hlen
        · rintro ⟨-, hth⟩
          have : idx + 1 + 1 = idx + 2 := by omega
          rw [this] at hth
          omega
        · rintro ⟨hl, -⟩
          have : idx + 1 + 1 = idx + 2 := by omega
          rw [this] at hl
          exact hlen hl
      unfold advanceLevel
      rw [if_neg hcond]
  · have he : advanceLevel score idx = (idx, false) := by
      unfold advanceLevel
      rw [if_neg h]
    refine ⟨by rw [he], by rw [he]; exact Nat.le_succ idx, ?_, ?_, ?_⟩
    · rw [he]
      simpa using h
    · rw [he]
      simp
    · intro hfired
      rw [he] at hfired
      exact absurd (congrArg Prod.snd hfired) (by simp)

/-- Closed instance of tier_advance_props: the spec scenario — score
crossing 500 advances tier 0 to tier 1 and fires the signal once;
re-evaluating with score still 500 does not re-fire it. -/
theorem tier_advance_props_witness :
    advanceLevel 500 0 = (1, true) ∧ advanceLevel 500 1 = (1, false) := by
  have h1 : advanceLevel 500 0 = (1, true) := by decide
  exact ⟨h1, (tier_advance_props 500 0).2.2.2.2 h1 (Or.inl (by decide))⟩

/-- Claim C6: the slow power-up multiplies every live obstacle's speed
by 0.6 and its expiry divides every live obstacle's speed by 0.6; over
exact (rational) arithmetic the restore exactly inverts the pickup, and
the per-tick obstacle motion never changes an obstacle's speed, so an
obstacle alive from pickup to expiry with no overlapping slow pickup
ends with precisely its pre-pickup speed. -/
theorem slow_roundtrip_exact (obstacles : List Obstacle) (sine : ℚ → ℚ)
    (dt : ℚ) (storm beat : Bool) (o : Obstacle) :
    restoreSlow (applySlow obstacles) = obstacles ∧
    (updateObstacle sine dt storm beat o).speed = o.speed := by
  constructor
  · unfold restoreSlow applySlow
    rw [List.map_map]
    have hid : ∀ x : Obstacle,
        ((fun o => { o with speed := o.speed / 0.6 }) ∘
         (fun o => { o with speed := o.speed * 0.6 })) x = x := by
      intro x
      cases x
      simp only [Function.comp_apply]
      congr 1
      rw [mul_div_cancel_right₀ _ (by norm_num : (0.6 : ℚ) ≠ 0)]
    calc obstacles.map _ = obstacles.map id := List.map_congr_left (fun x _ => hid x)
      _ = obstacles := List.map_id obstacles
  · rcases o with ⟨i, t, pos, w, h, rot, sp, ph, hu⟩
    cases t <;> rfl

/-- Math.round of the nominal dt ratio 1 is 1. -/
theorem roundQ_one : roundQ 1 = 1 := by
  rw [roundQ]
  norm_num

/-- The sample magnet is picked up at the sample body position. -/
theorem magnetSample_picked : powerUpPicked { x := 100, y := 300 } magnetSample = true := by
  norm_num [powerUpPicked, magnetSample, POWERUP_COLLECTION_RADIUS_SQUARED]

/-- Claim C3 counterexample: at the nominal frame (dt ratio 1), a tick
that picks up an uncollected magnet within the pickup radius increases
score by 501 and combo by 6 — not by exactly 500 and 5 — because the
tick also applies its unconditional round(1 * dt) increments. -/
theorem magnet_tick_delta_counterexample :
    (scoreComboPhase 0 0 1 { x := 100, y := 300 } [magnetSample]).1 = 501 ∧
    (scoreComboPhase 0 0 1 { x := 100, y := 300 } [magnetSample]).2.1 = 6 ∧
    (501 : ℤ) ≠ 500 := by
  refine ⟨?_, ?_, by norm_num⟩ <;>
  · simp [scoreComboPhase, collectPowerUps, collectScan, magnetSample_picked,
          roundQ_one]
    norm_num [magnetSample]

/-- Claim C3 as amended: a tick that picks up an uncollected magnet
within the pickup radius increases score by exactly 500 plus the tick's
unconditional round(1 * dt) increment, and combo by exactly 5 plus the
same increment, and marks the power-up collected (the collected marker
survives the purge filter while the power-up is right of x = -50). -/
theorem magnet_pickup_score_delta (score combo : ℤ) (dt : ℚ) (ball : Position)
    (p : PowerUp) (hc : p.collected = false) (ht : p.type = PowerUpType.magnet)
    (hr : (ball.x - p.position.x) * (ball.x - p.position.x) +
          (ball.y - p.position.y) * (ball.y - p.position.y) <
          POWERUP_COLLECTION_RADIUS_SQUARED)
    (hx : p.position.x > -50) :
    scoreComboPhase score combo dt ball [p] =
      (score + roundQ (1 * dt) + 500, combo + roundQ (1 * dt) + 5,
       [{ p with collected := true }]) := by
  have hpick : powerUpPicked ball p = true := by
    simp [powerUpPicked, hc, hr]
  have hscan : collectScan ball [p] =
      ([{ p with collected := true }], 500, 5,
       decide (p.type = PowerUpType.shield),
       if p.type = PowerUpType.slow then 1 else 0) := by
    simp [collectScan, hpick, ht]
  have hcollect : collectPowerUps ball [p] =
      ([{ p with collected := true }], 500, 5,
       decide (p.type = PowerUpType.shield),
       if p.type = PowerUpType.slow then 1 else 0) := by
    unfold collectPowerUps
    rw [hscan]
    simp [hpick, hx]
  unfold scoreComboPhase
  rw [hcollect]

/-- Closed instance of magnet_pickup_score_delta at score = combo = 0,
dt = 1, a magnet sitting on the body position. -/
theorem magnet_pickup_score_delta_witness :
    scoreComboPhase 0 0 1 { x := 100, y := 300 } [magnetSample] =
      (501, 6, [{ magnetSample with collected := true }]) := by
  have h := magnet_pickup_score_delta 0 0 1 { x := 100, y := 300 } magnetSample
    rfl rfl (by norm_num [magnetSample, POWERUP_COLLECTION_RADIUS_SQUARED])
    (by norm_num [magnetSample])
  rw [h]
  norm_num [roundQ_one]

/-- Claim C7 counterexample: the per-tick spawn chance is not of the
multiplicative form tierBaseChance * spawnMultiplier * scoreFactor for
any score-determined factor: at score 1000 the code's chance
(base * mult + score * 0.00001) would force scoreFactor 1000 = 2 at
base * mult = 0.01 and scoreFactor 1000 = 1.5 at base * mult = 0.02. -/
theorem spawn_chance_not_multiplicative :
    ¬ ∃ f : ℚ → ℚ, ∀ base mult score : ℚ,
        dynamicObstacleChance base mult score = base * mult * f score := by
  rintro ⟨f, hf⟩
  have h1 := hf 0.01 1 1000
  have h2 := hf 0.02 1 1000
  rw [dynamicObstacleChance] at h1 h2
  norm_num at h1 h2
  linarith

/-- Claim C7 as amended: a spawn is attempted only if the live obstacle
count is strictly below the tier's obstacleMax, the per-tick spawn
chance equals (tierBaseChance * spawnMultiplier + score * 0.00001) * dt
— the score contribution is additive, not a multiplicative factor — and
a firing spawn takes the multi-obstacle pattern exactly when the second
draw is below the fixed 25% chance, a single obstacle otherwise. -/
theorem spawn_gating_props (r1 r2 dt spawnMult score : ℚ)
    (obstacles : List Obstacle) (cfg : LevelConfig) (single : Obstacle)
    (pat : List Obstacle) :
    (cfg.obstacleMax ≤ obstacles.length →
       spawnPhase r1 r2 dt obstacles cfg spawnMult score single pat = obstacles) ∧
    (¬ r1 < (cfg.obstacleBaseChance * spawnMult + score * 0.00001) * dt →
       spawnPhase r1 r2 dt obstacles cfg spawnMult score single pat = obstacles) ∧
    (r1 < (cfg.obstacleBaseChance * spawnMult + score * 0.00001) * dt →
       obstacles.length < cfg.obstacleMax →
       (r2 < 0.25 →
          spawnPhase r1 r2 dt obstacles cfg spawnMult score single pat =
            obstacles ++ pat) ∧
       (¬ r2 < 0.25 →
          spawnPhase r1 r2 dt obstacles cfg spawnMult score single pat =
            obstacles ++ [single])) := by
  refine ⟨?_, ?_, ?_⟩
  · intro hmax
    unfold spawnPhase
    rw [if_neg]
    rintro ⟨-, hlt⟩
    omega
  · intro hr1
    unfold spawnPhase
    rw [if_neg]
    rintro ⟨hlt, -⟩
    exact hr1 (by simpa [dynamicObstacleChance] using hlt)
  · intro hr1 hcount
    have hcond : r1 < dynamicObstacleChance cfg.obstacleBaseChance spawnMult score * dt ∧
        obstacles.length < cfg.obstacleMax :=
      ⟨by simpa [dynamicObstacleChance] using hr1, hcount⟩
    constructor
    · intro hr2
      unfold spawnPhase
      rw [if_pos hcond, if_pos hr2]
    · intro hr2
      unfold spawnPhase
      rw [if_pos hcond, if_neg hr2]

/-- Closed instance of spawn_gating_props: at tier 0, no live obstacles,
draws r1 = 0 and r2 = 0, dt = 1, spawn multiplier 1, score 0, the spawn
fires and takes the pattern branch. -/
theorem spawn_gating_props_witness :
    spawnPhase 0 0 1 [] lvl0 1 0 obstacleSample [obstacleSample] =
      [] ++ [obstacleSample] := by
  have h := (spawn_gating_props 0 0 1 1 0 [] lvl0 obstacleSample
    [obstacleSample]).2.2
    (by norm_num [lvl0, LEVELS]) (by norm_num [lvl0, LEVELS])
  exact h.1 (by norm_num)

/-- Claim C8: the event slot is a singleton — the trigger function
itself refuses while an event is active, the per-tick guard never even
invokes it while an event is active, activation from the inactive state
installs exactly the chosen kind, and the timed expiry returns the slot
to inactive unconditionally, whatever state it held. -/
theorem single_active_event (st : EventState) (r prob dt : ℚ)
    (choice : Fin possibleEvents.length) :
    (st.isEventActive = true → triggerRandomEvent st choice = st) ∧
    (st.isEventActive = true → eventTriggerGuard st r prob dt choice = st) ∧
    (∀ st2 : EventState,
       eventExpire st2 = { isEventActive := false, activeEventType := none }) ∧
    (st.isEventActive = false →
       triggerRandomEvent st choice =
         { isEventActive := true,
           activeEventType := some (possibleEvents.get choice) }) := by
  refine ⟨?_, ?_, fun _ => rfl, ?_⟩
  · intro hact
    unfold triggerRandomEvent
    rw [if_pos hact]
  · intro hact
    unfold eventTriggerGuard
    rw [if_neg]
    rintro ⟨hneg, -⟩
    rw [hact] at hneg
    exact absurd hneg (by simp)
  · intro hinact
    unfold triggerRandomEvent
    rw [if_neg]
    simp [hinact]

/-- Closed instance of single_active_event: an active storm event is
left untouched by the trigger function and by the guarded trigger, and
the expiry clears it. -/
theorem single_active_event_witness :
    triggerRandomEvent { isEventActive := true, activeEventType := some .storm }
        ⟨0, by decide⟩ =
      { isEventActive := true, activeEventType := some .storm } ∧
    eventTriggerGuard { isEventActive := true, activeEventType := some .storm }
        0 1 1 ⟨0, by decide⟩ =
      { isEventActive := true, activeEventType := some .storm } ∧
    eventExpire { isEventActive := true, activeEventType := some .storm } =
      { isEventActive := false, activeEventType := none } := by
  have h := single_active_event
    { isEventActive := true, activeEventType := some .storm } 0 1 1 ⟨0, by decide⟩
  exact ⟨h.1 rfl, h.2.1 rfl, h.2.2.1 _⟩

/-- Claim C9: invoking the gravity-inversion input hook while the run
state is not playing is a total no-op on the whole run state (and, being
a total function, raises no error); while playing it negates the gravity
direction and leaves every simulation field other than the cosmetic
shake unchanged. -/
theorem toggle_gravity_guarded (st : RunState) :
    (st.gameState ≠ GameState.playing → toggleGravity st = st) ∧
    (st.gameState = GameState.playing →
       (toggleGravity st).gravityDir = -st.gravityDir ∧
       (toggleGravity st).gameState = st.gameState ∧
       (toggleGravity st).score = st.score ∧
       (toggleGravity st).combo = st.combo ∧
       (toggleGravity st).ballPos = st.ballPos ∧
       (toggleGravity st).ballVel = st.ballVel ∧
       (toggleGravity st).currentLevelIndex = st.currentLevelIndex ∧
       (toggleGravity st).obstacles = st.obstacles ∧
       (toggleGravity st).powerUps = st.powerUps ∧
       (toggleGravity st).invulnerable = st.invulnerable ∧
       (toggleGravity st).event = st.event) := by
  constructor
  · intro hne
    unfold toggleGravity
    rw [if_pos hne]
  · intro hpl
    have he : toggleGravity st = { st with gravityDir := -st.gravityDir, shake := 6 } := by
      unfold toggleGravity
      rw [if_neg (by simp [hpl])]
    rw [he]
    exact ⟨rfl, rfl, rfl, rfl, rfl, rfl, rfl, rfl, rfl, rfl, rfl⟩

/-- A concrete run state sitting in the menu. -/
def menuStateSample : RunState :=
  { gameState := GameState.menu, score := 0, combo := 0,
    ballPos := { x := 100, y := 300 }, ballVel := { x := 0, y := 0 },
    gravityDir := 1, currentLevelIndex := 0, obstacles := [], powerUps := [],
    invulnerable := false, shake := 0,
    event := { isEventActive := false, activeEventType := none } }

/-- Closed instance of toggle_gravity_guarded: in the menu state the
input hook changes nothing. -/
theorem toggle_gravity_guarded_witness :
    toggleGravity menuStateSample = menuStateSample :=
  (toggle_gravity_guarded menuStateSample).1 (by simp [menuStateSample])

/-- Claim C10: every pattern template holds exactly 3 obstacles, a
generated pattern burst therefore appends exactly 3 obstacles, and since
the spawn gate (count < obstacleMax) is checked before appending, the
post-spawn obstacle count never exceeds obstacleMax + 2 — the tier
maximum is a soft cap that a pattern may exceed by at most 2. -/
theorem obstacle_soft_cap (obstacles : List Obstacle) (cfg : LevelConfig)
    (pidx : Fin PATTERNS.length) (rand phase hue : ℕ → ℚ)
    (score r1 r2 dt spawnMult : ℚ) (storm beat : Bool) (single : Obstacle)
    (h : obstacles.length ≤ cfg.obstacleMax + 2) :
    (∀ p ∈ PATTERNS, p.offsets.length = 3) ∧
    (generateObstaclePattern cfg pidx rand phase hue score storm beat).length = 3 ∧
    (spawnPhase r1 r2 dt obstacles cfg spawnMult score single
        (generateObstaclePattern cfg pidx rand phase hue score storm beat)).length
      ≤ cfg.obstacleMax + 2 := by
  have hpat : ∀ p ∈ PATTERNS, p.offsets.length = 3 := by decide
  have hlen : (generateObstaclePattern cfg pidx rand phase hue score storm beat).length = 3 := by
    unfold generateObstaclePattern
    rw [List.length_mapIdx]
    exact hpat _ (List.get_mem PATTERNS pidx.1 pidx.2)
  refine ⟨hpat, hlen, ?_⟩
  unfold spawnPhase
  split
  · rename_i hcond
    split
    · rw [List.length_append, hlen]
      omega
    · rw [List.length_append]
      simp only [List.length_singleton]
      omega
  · exact h

/-- Closed instance of obstacle_soft_cap at tier 0, no live obstacles,
the first pattern template, zero random draws. -/
theorem obstacle_soft_cap_witness :
    (∀ p ∈ PATTERNS, p.offsets.length = 3) ∧
    (generateObstaclePattern lvl0 patternIdx0 zeroStream zeroStream zeroStream
        0 false false).length = 3 ∧
    (spawnPhase 0 0 1 [] lvl0 1 0 obstacleSample
        (generateObstaclePattern lvl0 patternIdx0 zeroStream zeroStream zeroStream
          0 false false)).length ≤ lvl0.obstacleMax + 2 :=
  obstacle_soft_cap [] lvl0 patternIdx0 zeroStream zeroStream zeroStream
    0 0 0 1 1 false false obstacleSample (by simp)

end GravityWeaver
